import Mathlib

/-!
Verification of the `ziplus` US ZIP-code lookup library.

This file gives a shallow embedding of `ziplus/__init__.py` and proves
properties of it.  Python strings are modelled as Lean `String`
(sequences of code points); `str.upper` is modelled as ASCII uppercasing
(all registry data is ASCII); Python exceptions are modelled with the
`Except` monad over an explicit error type; the module-level mutable
dataset singleton (`_zipcodes` / `_dataset_version`) is modelled by
explicit state passing of a `DatasetState`, and the gzip artifact is
modelled as an already-decoded `Artifact` value (the bytes-level decode
is out of scope).  The regular expression `\d` class is modelled as the
ASCII digits (Python's `\d` additionally accepts non-ASCII Unicode
decimal digits; all inputs discussed by the specification are ASCII).
-/

namespace Ziplus

/-- Embeds `STATES_LIST`: the tuple of the 51 two-letter state codes, in
the source's order. -/
def STATES_LIST : List String :=
  ["AK", "AL", "AR", "AZ", "CA", "CO", "CT", "DC", "DE", "FL", "GA",
   "HI", "IA", "ID", "IL", "IN", "KS", "KY", "LA", "MA", "MD", "ME",
   "MI", "MN", "MO", "MS", "MT", "NC", "ND", "NE", "NH", "NJ", "NM",
   "NV", "NY", "OH", "OK", "OR", "PA", "RI", "SC", "SD", "TN", "TX",
   "UT", "VA", "VT", "WA", "WI", "WV", "WY"]

/-- Embeds `STATES`: the mapping from full state name to abbreviation, as
an association list in the source's (insertion) order.  The Python dict
has distinct keys, so first-match lookup on this list agrees with the
dict. -/
def STATES : List (String × String) :=
  [("Alabama", "AL"), ("Alaska", "AK"), ("Arizona", "AZ"),
   ("Arkansas", "AR"), ("California", "CA"), ("Colorado", "CO"),
   ("Connecticut", "CT"), ("Delaware", "DE"),
   ("District of Columbia", "DC"), ("Florida", "FL"), ("Georgia", "GA"),
   ("Hawaii", "HI"), ("Idaho", "ID"), ("Illinois", "IL"),
   ("Indiana", "IN"), ("Iowa", "IA"), ("Kansas", "KS"),
   ("Kentucky", "KY"), ("Louisiana", "LA"), ("Maine", "ME"),
   ("Maryland", "MD"), ("Massachusetts", "MA"), ("Michigan", "MI"),
   ("Minnesota", "MN"), ("Mississippi", "MS"), ("Missouri", "MO"),
   ("Montana", "MT"), ("Nebraska", "NE"), ("Nevada", "NV"),
   ("New Hampshire", "NH"), ("New Jersey", "NJ"), ("New Mexico", "NM"),
   ("New York", "NY"), ("North Carolina", "NC"), ("North Dakota", "ND"),
   ("Ohio", "OH"), ("Oklahoma", "OK"), ("Oregon", "OR"),
   ("Pennsylvania", "PA"), ("Rhode Island", "RI"),
   ("South Carolina", "SC"), ("South Dakota", "SD"), ("Tennessee", "TN"),
   ("Texas", "TX"), ("Utah", "UT"), ("Vermont", "VT"),
   ("Virginia", "VA"), ("Washington", "WA"), ("West Virginia", "WV"),
   ("Wisconsin", "WI"), ("Wyoming", "WY")]

/-- Models Python `str.upper()` on ASCII input: uppercase every
lowercase ASCII letter, leave every other code point unchanged. -/
def pyUpper (s : String) : String := ⟨s.data.map Char.toUpper⟩

/-- Embeds `_NAME_TO_ABBR = {name.upper(): abbr for name, abbr in STATES.items()}`. -/
def NAME_TO_ABBR : List (String × String) :=
  STATES.map (fun p => (pyUpper p.1, p.2))

/-- Embeds `_ABBR_TO_NAME = {abbr: name for name, abbr in STATES.items()}`. -/
def ABBR_TO_NAME : List (String × String) :=
  STATES.map (fun p => (p.2, p.1))

/-! ### The regex `^(\d{5})-?(\d{4})?$` -/

/-- The part of a match of `RE_ZIP_PLUS4` after the five digits and the
optional hyphen: `(\d{4})?$`, where Python's `$` (without `MULTILINE`)
matches at the end of the string or just before a single newline at the
end of the string. -/
def zipTail (r : List Char) : Bool :=
  match r with
  | [] => true
  | [c] => c == '\n'
  | [d1, d2, d3, d4] => d1.isDigit && d2.isDigit && d3.isDigit && d4.isDigit
  | [d1, d2, d3, d4, c] =>
      (c == '\n') && d1.isDigit && d2.isDigit && d3.isDigit && d4.isDigit
  | _ => false

/-- The `-?` part of `RE_ZIP_PLUS4`: consume one leading hyphen if
present.  Consuming is forced whenever the overall match succeeds, since
neither `(\d{4})?` nor `$` can act on a leading `'-'`, so this is the
exact backtracking behaviour. -/
def stripHyphen (r : List Char) : List Char :=
  match r with
  | c :: rest => if c = '-' then rest else c :: rest
  | [] => []

/-- Embeds `bool(RE_ZIP_PLUS4.match(s))` for the compiled pattern
`^(\d{5})-?(\d{4})?$`. -/
def RE_ZIP_PLUS4_match (s : String) : Bool :=
  match s.data with
  | c1 :: c2 :: c3 :: c4 :: c5 :: rest =>
      c1.isDigit && c2.isDigit && c3.isDigit && c4.isDigit && c5.isDigit &&
        zipTail (stripHyphen rest)
  | _ => false

/-- Embeds `is_valid`. -/
def is_valid (zipcode : String) : Bool := RE_ZIP_PLUS4_match zipcode

/-! ### Dataset state and loader -/

/-- The decoded gzip artifact: `dataset.get('version', ...)` and
`dataset.get('zipcodes', ...)` may each be absent, hence the `Option`
and the defaulting in `_load`.  Ordinals stored by the build script are
non-negative, hence `Nat`. -/
structure Artifact where
  version : Option String
  zipcodes : List (String × Nat)
deriving DecidableEq

/-- The module-level mutable singleton: `_zipcodes` and
`_dataset_version`, both initially `None`. -/
structure DatasetState where
  zipcodesSlot : Option (List (String × Nat))
  versionSlot : Option String
deriving DecidableEq

/-- Embeds `_load()`: a no-op when `_zipcodes is not None`, otherwise
populate both slots from the artifact, defaulting the version to
`"unknown"`. -/
def _load (a : Artifact) (s : DatasetState) : DatasetState :=
  if s.zipcodesSlot.isSome then s
  else ⟨some a.zipcodes, some (a.version.getD "unknown")⟩

/-- Embeds `dataset_version()`: trigger `_load`, return the version
slot (which Python would return as-is). -/
def dataset_version (a : Artifact) (s : DatasetState) :
    Option String × DatasetState :=
  let s1 := _load a s
  (s1.versionSlot, s1)

/-! ### Errors -/

/-- The Python exceptions the embedded functions can raise. -/
inductive PyError where
  | valueError : String → PyError
  | stateException : String → PyError
  | indexError : PyError
  | keyError : PyError
deriving DecidableEq

/-! ### ZIP lookup -/

/-- Models the slice `zipcode[:5]` (Python slices by code point). -/
def take5 (s : String) : String := ⟨s.data.take 5⟩

/-- Embeds `get_state(zipcode, abbr=...)`: trigger `_load`, raise
`ValueError` on invalid syntax, look up the 5-character prefix, decode
the stored ordinal through `STATES_LIST` (an out-of-range ordinal would
raise `IndexError` in Python, a missing abbreviation key `KeyError`). -/
def get_state (a : Artifact) (s : DatasetState) (zipcode : String)
    (abbr : Bool) : Except PyError (Option String) × DatasetState :=
  let s1 := _load a s
  if is_valid zipcode = false then
    (Except.error (PyError.valueError (zipcode ++ " is not a valid US ZIP code")), s1)
  else
    match (s1.zipcodesSlot.getD []).lookup (take5 zipcode) with
    | none => (Except.ok none, s1)
    | some st_idx =>
        match STATES_LIST.get? st_idx with
        | none => (Except.error PyError.indexError, s1)
        | some state_abbr =>
            if abbr then (Except.ok (some state_abbr), s1)
            else
              match ABBR_TO_NAME.lookup state_abbr with
              | none => (Except.error PyError.keyError, s1)
              | some name => (Except.ok (some name), s1)

/-! ### Conversion, normalization, formatting, predicates -/

/-- Embeds `_resolve(value)`: abbreviation match first, then full-name
match, both on the uppercased input.  (The inner `_ABBR_TO_NAME[abbr]`
cannot miss, since every abbreviation value is a key of
`_ABBR_TO_NAME`; the `none` fallback is unreachable.) -/
def _resolve (value : String) : Option (String × String) :=
  let upper := pyUpper value
  match ABBR_TO_NAME.lookup upper with
  | some name => some (upper, name)
  | none =>
      match NAME_TO_ABBR.lookup upper with
      | some ab =>
          match ABBR_TO_NAME.lookup ab with
          | some name => some (ab, name)
          | none => none
      | none => none

/-- Embeds `state_to_abbr(state, default=..., raise_exception=...)`. -/
def state_to_abbr (state : String) (default : Option String)
    (raise_exception : Bool) : Except PyError (Option String) :=
  let upper := pyUpper state
  match NAME_TO_ABBR.lookup upper with
  | some ab => Except.ok (some ab)
  | none =>
      if raise_exception then
        Except.error (PyError.stateException ("Unknown state name: " ++ state))
      else Except.ok default

/-- Embeds `abbr_to_state(abbr, default=..., raise_exception=...)`. -/
def abbr_to_state (abbr : String) (default : Option String)
    (raise_exception : Bool) : Except PyError (Option String) :=
  let upper := pyUpper abbr
  match ABBR_TO_NAME.lookup upper with
  | some name => Except.ok (some name)
  | none =>
      if raise_exception then
        Except.error (PyError.stateException ("Unknown state abbreviation: " ++ abbr))
      else Except.ok default

/-- Embeds `norm_to_abbr(value, default=..., raise_exception=...)`. -/
def norm_to_abbr (value : String) (default : Option String)
    (raise_exception : Bool) : Except PyError (Option String) :=
  match _resolve value with
  | some resolved => Except.ok (some resolved.1)
  | none =>
      if raise_exception then
        Except.error (PyError.stateException ("Unknown state: " ++ value))
      else Except.ok default

/-- Embeds `norm_to_state(value, default=..., raise_exception=...)`. -/
def norm_to_state (value : String) (default : Option String)
    (raise_exception : Bool) : Except PyError (Option String) :=
  match _resolve value with
  | some resolved => Except.ok (some resolved.2)
  | none =>
      if raise_exception then
        Except.error (PyError.stateException ("Unknown state: " ++ value))
      else Except.ok default

/-- Embeds `format_state(value, raise_exception=...)`. -/
def format_state (value : String) (raise_exception : Bool) :
    Except PyError String :=
  let upper := pyUpper value
  match NAME_TO_ABBR.lookup upper with
  | some ab =>
      match ABBR_TO_NAME.lookup ab with
      | some name => Except.ok name
      | none => Except.error PyError.keyError
  | none =>
      match ABBR_TO_NAME.lookup upper with
      | some _ => Except.ok upper
      | none =>
          if raise_exception then
            Except.error (PyError.stateException ("Unknown state: " ++ value))
          else Except.ok value

/-- Embeds `is_state(value)`. -/
def is_state (value : String) : Bool := (_resolve value).isSome

/-- Embeds `is_state_full(state)`. -/
def is_state_full (state : String) : Bool :=
  (NAME_TO_ABBR.lookup (pyUpper state)).isSome

/-- Embeds `is_state_abbr(abbr)`. -/
def is_state_abbr (abbr : String) : Bool :=
  (ABBR_TO_NAME.lookup (pyUpper abbr)).isSome

/-! ### State-passing wrappers

Each public entry point, viewed as a transformer of the module-level
dataset singleton.  The functions below do not contain a `_load()` call
in the source and never read `_zipcodes`, so they pass the state through
untouched; `get_state` and `dataset_version` above thread it through
`_load`. -/

/-- Wrapper: `is_valid` as a dataset-state transformer (no `_load` call in the source). -/
def is_valid_run (s : DatasetState) (zipcode : String) :
    Bool × DatasetState := (is_valid zipcode, s)

/-- Wrapper: `state_to_abbr` as a dataset-state transformer (no `_load` call in the source). -/
def state_to_abbr_run (s : DatasetState) (state : String)
    (default : Option String) (raise_exception : Bool) :
    Except PyError (Option String) × DatasetState :=
  (state_to_abbr state default raise_exception, s)

/-- Wrapper: `abbr_to_state` as a dataset-state transformer (no `_load` call in the source). -/
def abbr_to_state_run (s : DatasetState) (abbr : String)
    (default : Option String) (raise_exception : Bool) :
    Except PyError (Option String) × DatasetState :=
  (abbr_to_state abbr default raise_exception, s)

/-- Wrapper: `norm_to_abbr` as a dataset-state transformer (no `_load` call in the source). -/
def norm_to_abbr_run (s : DatasetState) (value : String)
    (default : Option String) (raise_exception : Bool) :
    Except PyError (Option String) × DatasetState :=
  (norm_to_abbr value default raise_exception, s)

/-- Wrapper: `norm_to_state` as a dataset-state transformer (no `_load` call in the source). -/
def norm_to_state_run (s : DatasetState) (value : String)
    (default : Option String) (raise_exception : Bool) :
    Except PyError (Option String) × DatasetState :=
  (norm_to_state value default raise_exception, s)

/-- Wrapper: `format_state` as a dataset-state transformer (no `_load` call in the source). -/
def format_state_run (s : DatasetState) (value : String)
    (raise_exception : Bool) : Except PyError String × DatasetState :=
  (format_state value raise_exception, s)

/-- Wrapper: `is_state` as a dataset-state transformer (no `_load` call in the source). -/
def is_state_run (s : DatasetState) (value : String) :
    Bool × DatasetState := (is_state value, s)

/-- Wrapper: `is_state_full` as a dataset-state transformer (no `_load` call in the source). -/
def is_state_full_run (s : DatasetState) (state : String) :
    Bool × DatasetState := (is_state_full state, s)

/-- Wrapper: `is_state_abbr` as a dataset-state transformer (no `_load` call in the source). -/
def is_state_abbr_run (s : DatasetState) (abbr : String) :
    Bool × DatasetState := (is_state_abbr abbr, s)

/-- Strict lexicographic order on code-point lists; on the all-uppercase
ASCII registry codes this is exactly alphabetical order. -/
def charListLt : List Char → List Char → Bool
  | [], [] => false
  | [], _ :: _ => true
  | _ :: _, [] => false
  | a :: as, b :: bs => if a < b then true else if a = b then charListLt as bs else false

/-! ### Specification-side ZIP shape (for the validity claim) -/

/-- The ZIP / ZIP+4 shape actually accepted by the pattern
`^(\d{5})-?(\d{4})?$` under Python matching semantics, written
declaratively: five digits, then an optional hyphen, then an optional
block of four digits (each optional independently of the other), then an
optional single trailing newline (accepted by Python's `$`). -/
def zipShapeSpec (s : String) : Prop :=
  ∃ d5 h d4 nl : List Char,
    s.data = d5 ++ h ++ d4 ++ nl ∧
    d5.length = 5 ∧ (∀ c ∈ d5, c.isDigit = true) ∧
    (h = [] ∨ h = ['-']) ∧
    (d4 = [] ∨ (d4.length = 4 ∧ ∀ c ∈ d4, c.isDigit = true)) ∧
    (nl = [] ∨ nl = ['\n'])

/-! ### Helper lemmas -/

/-- A successful association-list lookup exhibits a member pair. -/
theorem lookup_mem {l : List (String × String)} {k v : String}
    (h : l.lookup k = some v) : (k, v) ∈ l := by
  induction l with
  | nil => simp [List.lookup] at h
  | cons p t ih =>
      obtain ⟨a, b⟩ := p
      simp only [List.lookup] at h
      by_cases hk : k = a
      · subst hk
        simp only [beq_self_eq_true] at h
        simp only [Option.some.injEq] at h
        subst h
        exact List.mem_cons_self _ _
      · have hne : (k == a) = false := beq_false_of_ne hk
        rw [hne] at h
        exact List.mem_cons_of_mem _ (ih h)

/-- The uppercased-full-name keys and the abbreviation keys are disjoint. -/
theorem name_abbr_keys_disjoint :
    ∀ p ∈ NAME_TO_ABBR, ∀ q ∈ ABBR_TO_NAME, p.1 ≠ q.1 := by decide

/-- Every abbreviation stored in `_NAME_TO_ABBR` is a key of `_ABBR_TO_NAME`. -/
theorem name_values_are_abbr_keys :
    ∀ p ∈ NAME_TO_ABBR, (ABBR_TO_NAME.lookup p.2).isSome = true := by decide

/-- If `is_state` is false, both internal lookups on the uppercased
input miss. -/
theorem not_is_state_lookups (value : String) (h : is_state value = false) :
    NAME_TO_ABBR.lookup (pyUpper value) = none ∧
    ABBR_TO_NAME.lookup (pyUpper value) = none := by
  have ha : ABBR_TO_NAME.lookup (pyUpper value) = none := by
    cases ha : ABBR_TO_NAME.lookup (pyUpper value) with
    | none => rfl
    | some nm => simp [is_state, _resolve, ha] at h
  refine ⟨?_, ha⟩
  cases hn : NAME_TO_ABBR.lookup (pyUpper value) with
  | none => rfl
  | some ab =>
      exfalso
      have hsome := name_values_are_abbr_keys _ (lookup_mem hn)
      obtain ⟨nm, hnm⟩ := Option.isSome_iff_exists.mp hsome
      simp [is_state, _resolve, ha, hn, hnm] at h

/-- Each `STATES` entry is found by the two internal lookups. -/
theorem states_lookup_name :
    ∀ p ∈ STATES, NAME_TO_ABBR.lookup (pyUpper p.1) = some p.2 := by decide

/-- Each abbreviation key recovers its canonical full name. -/
theorem states_lookup_abbr :
    ∀ p ∈ STATES, ABBR_TO_NAME.lookup p.2 = some p.1 := by decide

/-- Abbreviations are already uppercase. -/
theorem states_abbr_upper : ∀ p ∈ STATES, pyUpper p.2 = p.2 := by decide

/-- Every entry of `STATES_LIST` is the abbreviation of a `STATES` pair,
whose full name the abbreviation lookup recovers. -/
theorem states_list_decodes :
    ∀ ab ∈ STATES_LIST, ∃ p ∈ STATES, p.2 = ab ∧
      ABBR_TO_NAME.lookup ab = some p.1 := by decide

/-- After `_load`, the zipcodes slot is populated. -/
theorem load_isSome (a : Artifact) (s : DatasetState) :
    (_load a s).zipcodesSlot.isSome = true := by
  cases hz : s.zipcodesSlot <;> simp [_load, hz]

/-- Lemma: `get_state` leaves the dataset state exactly as `_load` leaves it. -/
theorem get_state_state (a : Artifact) (s : DatasetState) (zipcode : String)
    (abbr : Bool) : (get_state a s zipcode abbr).2 = _load a s := by
  unfold get_state
  dsimp only
  repeat' split <;> try rfl

/-- The value returned by `get_state` on syntactically valid input,
written out: look up the 5-character prefix, then decode. -/
theorem get_state_valid_eq (a : Artifact) (s : DatasetState)
    (zipcode : String) (abbr : Bool) (hv : is_valid zipcode = true) :
    (get_state a s zipcode abbr).1 =
      match ((_load a s).zipcodesSlot.getD []).lookup (take5 zipcode) with
      | none => Except.ok none
      | some st_idx =>
          match STATES_LIST.get? st_idx with
          | none => Except.error PyError.indexError
          | some state_abbr =>
              if abbr then Except.ok (some state_abbr)
              else
                match ABBR_TO_NAME.lookup state_abbr with
                | none => Except.error PyError.keyError
                | some name => Except.ok (some name) := by
  unfold get_state
  simp only [hv]
  try dsimp only
  rw [if_neg (by simp)]
  repeat' split <;> try rfl

/-- Truncating to five code points is idempotent. -/
theorem take5_idem (s : String) : take5 (take5 s) = take5 s := by
  simp [take5, List.take_take]

/-- The 5-character prefix of a syntactically valid code is itself
valid. -/
theorem is_valid_take5 (code : String) (hv : is_valid code = true) :
    is_valid (take5 code) = true := by
  unfold is_valid RE_ZIP_PLUS4_match at hv ⊢
  rcases hd : code.data with _ | ⟨c1, _ | ⟨c2, _ | ⟨c3, _ | ⟨c4, _ | ⟨c5, rest⟩⟩⟩⟩⟩ <;>
    simp_all [take5, hd, zipTail, stripHyphen]

example : is_valid "60614" = true := by decide
example : is_valid "60614-7890" = true := by decide
example : is_valid "606147890" = true := by decide
example : is_valid "606" = false := by decide
example : is_valid "hello" = false := by decide
example : is_valid "" = false := by decide
example : is_valid "12345-" = true := by decide
example : pyUpper "fLoRiDa" = "FLORIDA" := by decide
example : NAME_TO_ABBR.lookup "TEXAS" = some "TX" := by decide
example : state_to_abbr "texas" none false = Except.ok (some "TX") := rfl

/-! ### Claim C1 -/

/-- Decomposition of a successful `(\d{4})?$` tail match. -/
theorem zipTail_eq_true {t : List Char} (h : zipTail t = true) :
    ∃ d4 nl : List Char, t = d4 ++ nl ∧
      (d4 = [] ∨ (d4.length = 4 ∧ ∀ c ∈ d4, c.isDigit = true)) ∧
      (nl = [] ∨ nl = ['\n']) := by
  rcases t with _ | ⟨a, _ | ⟨b, _ | ⟨c, _ | ⟨d, _ | ⟨e, _ | ⟨f, t0⟩⟩⟩⟩⟩⟩
  · exact ⟨[], [], rfl, Or.inl rfl, Or.inl rfl⟩
  · have ha : a = '\n' := by simpa [zipTail] using h
    exact ⟨[], ['\n'], by simp [ha], Or.inl rfl, Or.inr rfl⟩
  · simp [zipTail] at h
  · simp [zipTail] at h
  · simp only [zipTail, Bool.and_eq_true] at h
    refine ⟨[a, b, c, d], [], by simp, Or.inr ⟨rfl, ?_⟩, Or.inl rfl⟩
    simp_all
  · simp only [zipTail, Bool.and_eq_true, beq_iff_eq] at h
    refine ⟨[a, b, c, d], ['\n'], ?_, Or.inr ⟨rfl, ?_⟩, Or.inr rfl⟩ <;> simp_all
  · simp [zipTail] at h

/-- A four-digit block plus an optional trailing newline satisfies the
`(\d{4})?$` tail. -/
theorem zipTail_append {d4 nl : List Char}
    (hd4 : d4 = [] ∨ (d4.length = 4 ∧ ∀ c ∈ d4, c.isDigit = true))
    (hnl : nl = [] ∨ nl = ['\n']) : zipTail (d4 ++ nl) = true := by
  rcases hd4 with h4 | ⟨hlen, hdig⟩
  · subst h4
    rcases hnl with h | h <;> subst h <;> decide
  · rcases d4 with _ | ⟨a, _ | ⟨b, _ | ⟨c, _ | ⟨d, t⟩⟩⟩⟩ <;> simp at hlen
    subst hlen
    have ha : a.isDigit = true := hdig a (by simp)
    have hb : b.isDigit = true := hdig b (by simp)
    have hc : c.isDigit = true := hdig c (by simp)
    have hd : d.isDigit = true := hdig d (by simp)
    rcases hnl with h | h <;> subst h <;> simp [zipTail, ha, hb, hc, hd]

/-- The optional-hyphen step does not touch a tail that starts with a
digit or a newline (or is empty). -/
theorem stripHyphen_append {d4 nl : List Char}
    (hd4 : d4 = [] ∨ (d4.length = 4 ∧ ∀ c ∈ d4, c.isDigit = true))
    (hnl : nl = [] ∨ nl = ['\n']) : stripHyphen (d4 ++ nl) = d4 ++ nl := by
  rcases hd4 with h4 | ⟨hlen, hdig⟩
  · subst h4
    rcases hnl with h | h <;> subst h <;> decide
  · rcases d4 with _ | ⟨a, t⟩
    · simp at hlen
    · have ha : a.isDigit = true := hdig a (by simp)
      have hne : ¬ (a = '-') := by
        intro he
        rw [he] at ha
        exact absurd ha (by decide)
      simp [stripHyphen, hne]

/-- Counterexample to C1: the claim says a 9-digit string with no
hyphen, a trailing hyphen with no 4-digit suffix, and any other
departure from `5 digits [- 4 digits]` are invalid; but in the pattern
`^(\d{5})-?(\d{4})?$` the hyphen and the 4-digit group are optional
independently of each other (and Python's `$` also accepts one trailing
newline), so all three of these inputs are accepted (the repository's
own test suite asserts `is_valid('606147890') is True`). -/
theorem is_valid_shape_counterexample :
    is_valid "123456789" = true ∧ is_valid "12345-" = true ∧
    is_valid "12345\n" = true := by decide

/-- C1 amended: `is_valid s` is true exactly when `s` is five digits,
then an optional hyphen, then an optional block of four digits (each
optional independently of the other), then an optional single trailing
newline. -/
theorem is_valid_iff_shape (s : String) :
    is_valid s = true ↔ zipShapeSpec s := by
  constructor
  · intro h
    unfold is_valid RE_ZIP_PLUS4_match at h
    rcases hd : s.data with _ | ⟨c1, _ | ⟨c2, _ | ⟨c3, _ | ⟨c4, _ | ⟨c5, rest⟩⟩⟩⟩⟩ <;>
      rw [hd] at h
    · exact Bool.noConfusion h
    · exact Bool.noConfusion h
    · exact Bool.noConfusion h
    · exact Bool.noConfusion h
    · exact Bool.noConfusion h
    simp only [Bool.and_eq_true] at h
    have ht : zipTail (stripHyphen rest) = true := h.2
    have hdigs : ∀ c ∈ [c1, c2, c3, c4, c5], c.isDigit = true := by
      simp_all
    cases rest with
    | nil =>
        exact ⟨[c1, c2, c3, c4, c5], [], [], [], by simp [hd], rfl, hdigs,
          Or.inl rfl, Or.inl rfl, Or.inl rfl⟩
    | cons r0 r1 =>
        by_cases hr0 : r0 = '-'
        · subst hr0
          have ht1 : zipTail r1 = true := by simpa [stripHyphen] using ht
          obtain ⟨d4, nl, hteq, hd4, hnl⟩ := zipTail_eq_true ht1
          exact ⟨[c1, c2, c3, c4, c5], ['-'], d4, nl, by simp [hd, hteq], rfl,
            hdigs, Or.inr rfl, hd4, hnl⟩
        · have ht1 : zipTail (r0 :: r1) = true := by
            simpa [stripHyphen, hr0] using ht
          obtain ⟨d4, nl, hteq, hd4, hnl⟩ := zipTail_eq_true ht1
          exact ⟨[c1, c2, c3, c4, c5], [], d4, nl, by simp [hd, hteq], rfl,
            hdigs, Or.inl rfl, hd4, hnl⟩
  · rintro ⟨d5, hseg, d4, nl, hdata, hlen, hdig, hhyph, hd4, hnl⟩
    rcases d5 with _ | ⟨a1, _ | ⟨a2, _ | ⟨a3, _ | ⟨a4, _ | ⟨a5, tl⟩⟩⟩⟩⟩ <;> simp at hlen
    subst hlen
    have ha1 : a1.isDigit = true := hdig a1 (by simp)
    have ha2 : a2.isDigit = true := hdig a2 (by simp)
    have ha3 : a3.isDigit = true := hdig a3 (by simp)
    have ha4 : a4.isDigit = true := hdig a4 (by simp)
    have ha5 : a5.isDigit = true := hdig a5 (by simp)
    unfold is_valid RE_ZIP_PLUS4_match
    rw [hdata]
    simp only [List.cons_append, List.nil_append]
    simp only [ha1, ha2, ha3, ha4, ha5, Bool.true_and]
    rcases hhyph with h | h <;> subst h
    · simp only [List.nil_append]
      rw [stripHyphen_append hd4 hnl]
      exact zipTail_append hd4 hnl
    · simp only [List.cons_append, List.nil_append]
      have hstrip : stripHyphen ('-' :: (d4 ++ nl)) = d4 ++ nl := by
        simp [stripHyphen]
      rw [hstrip]
      exact zipTail_append hd4 hnl

/-- Witness for the amended C1 on a concrete ZIP+4 input. -/
theorem is_valid_iff_shape_witness : zipShapeSpec "60614-7890" :=
  (is_valid_iff_shape "60614-7890").mp (by decide)

/-! ### Claim C8 -/

/-- C8: `STATES_LIST` contains exactly 51 pairwise-distinct 2-letter
codes, is sorted alphabetically (strictly increasing in lexicographic
order), and its members coincide exactly with the abbreviation values of
`STATES`; with 51 distinct entries, an ordinal in `[0, 50]` decodes to a
unique state. -/
theorem states_list_registry_props :
    STATES_LIST.length = 51 ∧ STATES_LIST.Nodup ∧
    (∀ ab ∈ STATES_LIST, ab.length = 2) ∧
    STATES_LIST.Pairwise (fun x y => charListLt x.data y.data = true) ∧
    (∀ ab ∈ STATES_LIST, ab ∈ STATES.map Prod.snd) ∧
    (∀ ab ∈ STATES.map Prod.snd, ab ∈ STATES_LIST) :=
  ⟨by decide, by decide, by decide, by decide, by decide, by decide⟩

/-! ### Claim C9 -/

/-- C9: `_load` is idempotent: loading an already-populated state is a
no-op that leaves the state (hence the in-memory table and the version
string) unchanged, and two consecutive loads are the same as one. -/
theorem load_idempotent (a : Artifact) (s : DatasetState) :
    _load a (_load a s) = _load a s ∧
    (s.zipcodesSlot.isSome = true → _load a s = s) ∧
    (dataset_version a (_load a s)).1 = (dataset_version a s).1 := by
  refine ⟨?_, ?_, ?_⟩
  · cases hz : s.zipcodesSlot <;> simp [_load, hz]
  · intro h
    simp [_load, h]
  · cases hz : s.zipcodesSlot <;> simp [dataset_version, _load, hz]

/-- Witness for C9: loading an already-populated concrete state returns
it unchanged. -/
theorem load_idempotent_witness :
    _load ⟨none, []⟩ ⟨some [("00601", 0)], some "v1"⟩ =
      ⟨some [("00601", 0)], some "v1"⟩ :=
  (load_idempotent ⟨none, []⟩ ⟨some [("00601", 0)], some "v1"⟩).2.1 rfl

/-! ### Claim C10 -/

/-- C10: `is_state_full` and `is_state_abbr` are never both true (the
uppercased full names and the abbreviations are disjoint key sets), and
`is_state` is true exactly when one of them is — so the
abbreviation-first order inside `_resolve` never changes the result. -/
theorem is_state_predicate_consistency (v : String) :
    ((is_state_full v && is_state_abbr v) = false) ∧
    is_state v = (is_state_full v || is_state_abbr v) := by
  cases hn : NAME_TO_ABBR.lookup (pyUpper v) with
  | none =>
      cases ha : ABBR_TO_NAME.lookup (pyUpper v) with
      | none => simp [is_state, is_state_full, is_state_abbr, _resolve, hn, ha]
      | some nm => simp [is_state, is_state_full, is_state_abbr, _resolve, hn, ha]
  | some ab =>
      cases ha : ABBR_TO_NAME.lookup (pyUpper v) with
      | none =>
          have hmem := lookup_mem hn
          have hsome := name_values_are_abbr_keys _ hmem
          obtain ⟨nm, hnm⟩ := Option.isSome_iff_exists.mp hsome
          simp [is_state, is_state_full, is_state_abbr, _resolve, hn, ha, hnm]
      | some nm =>
          exact absurd rfl
            (name_abbr_keys_disjoint (pyUpper v, ab) (lookup_mem hn)
              (pyUpper v, nm) (lookup_mem ha))

/-! ### Claim C4 -/

/-- Counterexample to C4: the claim says that after any public query
function returns, the dataset table is loaded.  But `state_to_abbr`
contains no `_load()` call: starting from the unloaded initial state it
returns successfully (`"Texas" ↦ "TX"`) while the zipcodes slot is
still `None`. -/
theorem conversion_does_not_load_counterexample :
    (state_to_abbr_run ⟨none, none⟩ "Texas" none false).1 =
      Except.ok (some "TX") ∧
    (state_to_abbr_run ⟨none, none⟩ "Texas" none false).2.zipcodesSlot.isSome
      = false :=
  ⟨rfl, rfl⟩

/-- C4 amended: only `get_state` and `dataset_version` trigger the
dataset Loader (after they return, the table is loaded); the conversion,
normalization, formatting and predicate entry points contain no load
call and leave the dataset state exactly unchanged. -/
theorem load_triggering_amended (a : Artifact) (s : DatasetState)
    (code st : String) (d : Option String) (r b : Bool) :
    (get_state a s code b).2.zipcodesSlot.isSome = true ∧
    (dataset_version a s).2.zipcodesSlot.isSome = true ∧
    (is_valid_run s code).2 = s ∧
    (state_to_abbr_run s st d r).2 = s ∧
    (abbr_to_state_run s st d r).2 = s ∧
    (norm_to_abbr_run s st d r).2 = s ∧
    (norm_to_state_run s st d r).2 = s ∧
    (format_state_run s st r).2 = s ∧
    (is_state_run s st).2 = s ∧
    (is_state_full_run s st).2 = s ∧
    (is_state_abbr_run s st).2 = s := by
  refine ⟨?_, ?_, rfl, rfl, rfl, rfl, rfl, rfl, rfl, rfl, rfl⟩
  · rw [get_state_state]
    exact load_isSome a s
  · exact load_isSome a s

/-! ### Claim C3 -/

/-- C3: on syntactically valid input `get_state` depends only on the
first five characters (a ZIP+4 input behaves exactly as its 5-digit
prefix), and a stored ordinal `i` decodes to the abbreviation at index
`i` of `STATES_LIST`, or to the corresponding registered full name when
the caller requests the full name. -/
theorem get_state_prefix_decode (a : Artifact) (s : DatasetState)
    (code : String) (b : Bool) (hv : is_valid code = true) :
    get_state a s code b = get_state a s (take5 code) b ∧
    ∀ i, ((_load a s).zipcodesSlot.getD []).lookup (take5 code) = some i →
      ∀ hi : i < STATES_LIST.length,
        (get_state a s code true).1 = Except.ok (some STATES_LIST[i]) ∧
        ∃ p ∈ STATES, p.2 = STATES_LIST[i] ∧
          (get_state a s code false).1 = Except.ok (some p.1) := by
  have hv5 := is_valid_take5 code hv
  constructor
  · have h2 : (get_state a s code b).2 = (get_state a s (take5 code) b).2 := by
      rw [get_state_state, get_state_state]
    have h1 : (get_state a s code b).1 = (get_state a s (take5 code) b).1 := by
      rw [get_state_valid_eq a s code b hv,
        get_state_valid_eq a s (take5 code) b hv5, take5_idem]
    exact Prod.ext h1 h2
  · intro i hl hi
    refine ⟨?_, ?_⟩
    · rw [get_state_valid_eq a s code true hv]
      simp [hl, List.getElem?_eq_getElem hi]
    · obtain ⟨p, hp, hpe, hplook⟩ :=
        states_list_decodes STATES_LIST[i] (List.getElem_mem hi)
      refine ⟨p, hp, hpe, ?_⟩
      rw [get_state_valid_eq a s code false hv]
      simp [hl, List.getElem?_eq_getElem hi, hplook]

/-- Witness for C3: with a one-entry table mapping `"78701"` to
ordinal 43 (`"TX"`), the ZIP+4 form behaves as the bare prefix and
decodes to the abbreviation at index 43. -/
theorem get_state_prefix_decode_witness :
    get_state ⟨some "v", [("78701", 43)]⟩ ⟨none, none⟩ "78701-1234" true =
      get_state ⟨some "v", [("78701", 43)]⟩ ⟨none, none⟩ "78701" true ∧
    (get_state ⟨some "v", [("78701", 43)]⟩ ⟨none, none⟩ "78701-1234" true).1 =
      Except.ok (some "TX") := by
  have h := get_state_prefix_decode ⟨some "v", [("78701", 43)]⟩ ⟨none, none⟩
    "78701-1234" true (by decide)
  exact ⟨h.1, ((h.2 43 (by decide) (by decide)).1)⟩

/-! ### Claim C5 -/

/-- C5: on an input that does not resolve, each of `state_to_abbr`,
`abbr_to_state`, `norm_to_abbr` and `norm_to_state` raises a
`StateException` exactly when `raise_exception` is true, and otherwise
returns the caller-supplied default verbatim (for every default value,
with no further lookup of the default). -/
theorem resolution_miss_contract (value : String) (d : Option String)
    (h : is_state value = false) :
    state_to_abbr value d false = Except.ok d ∧
    state_to_abbr value d true =
      Except.error (PyError.stateException ("Unknown state name: " ++ value)) ∧
    abbr_to_state value d false = Except.ok d ∧
    abbr_to_state value d true =
      Except.error (PyError.stateException ("Unknown state abbreviation: " ++ value)) ∧
    norm_to_abbr value d false = Except.ok d ∧
    norm_to_abbr value d true =
      Except.error (PyError.stateException ("Unknown state: " ++ value)) ∧
    norm_to_state value d false = Except.ok d ∧
    norm_to_state value d true =
      Except.error (PyError.stateException ("Unknown state: " ++ value)) := by
  obtain ⟨hn, ha⟩ := not_is_state_lookups value h
  refine ⟨?_, ?_, ?_, ?_, ?_, ?_, ?_, ?_⟩ <;>
    simp [state_to_abbr, abbr_to_state, norm_to_abbr, norm_to_state,
      _resolve, hn, ha]

/-- Witness for C5 at the spec's own example: `"QQ"` does not resolve,
the default `"TEXAS"` is returned verbatim despite colliding with a
full-name key, and opting in raises. -/
theorem resolution_miss_contract_witness :
    is_state "QQ" = false ∧
    abbr_to_state "QQ" (some "TEXAS") false = Except.ok (some "TEXAS") ∧
    state_to_abbr "QQ" (some "TEXAS") true =
      Except.error (PyError.stateException "Unknown state name: QQ") :=
  ⟨by decide,
   (resolution_miss_contract "QQ" (some "TEXAS") (by decide)).2.2.1,
   (resolution_miss_contract "QQ" (some "TEXAS") (by decide)).2.1⟩

/-! ### Claim C2 -/

/-- C2: `get_state` raises `ValueError` exactly on syntactically invalid
input, and on valid input whose 5-character prefix is not a key of the
loaded table it returns `None` without raising. -/
theorem get_state_error_contract (a : Artifact) (s : DatasetState)
    (code : String) (b : Bool) :
    ((∃ msg, (get_state a s code b).1 = Except.error (PyError.valueError msg)) ↔
      is_valid code = false) ∧
    (is_valid code = true →
      ((_load a s).zipcodesSlot.getD []).lookup (take5 code) = none →
      (get_state a s code b).1 = Except.ok none) := by
  cases hv : is_valid code with
  | false =>
      refine ⟨⟨fun _ => rfl, fun _ => ?_⟩, fun h => Bool.noConfusion h⟩
      refine ⟨code ++ " is not a valid US ZIP code", ?_⟩
      unfold get_state
      simp [hv]
  | true =>
      constructor
      · constructor
        · rintro ⟨msg, hmsg⟩
          exfalso
          rw [get_state_valid_eq a s code b hv] at hmsg
          cases hl : ((_load a s).zipcodesSlot.getD []).lookup (take5 code) with
          | none => simp [hl] at hmsg
          | some idx =>
              simp only [hl, List.get?_eq_getElem?] at hmsg
              cases hg : STATES_LIST[idx]? with
              | none => simp [hg] at hmsg
              | some ab =>
                  simp only [hg] at hmsg
                  cases b with
                  | true => simp at hmsg
                  | false =>
                      simp only [Bool.false_eq_true, if_false] at hmsg
                      cases hab : ABBR_TO_NAME.lookup ab with
                      | none => simp [hab] at hmsg
                      | some nm => simp [hab] at hmsg
        · intro h; exact Bool.noConfusion h
      · intro _ hl
        rw [get_state_valid_eq a s code b hv, hl]

/-- Witness for C2: with a concrete one-entry table, the unassigned but
well-formed code `"00000"` yields `None` and no `ValueError`. -/
theorem get_state_error_contract_witness :
    (get_state ⟨some "v", [("78701", 43)]⟩ ⟨none, none⟩ "00000" true).1 =
      Except.ok none ∧
    ¬ (∃ msg,
        (get_state ⟨some "v", [("78701", 43)]⟩ ⟨none, none⟩ "00000" true).1 =
          Except.error (PyError.valueError msg)) := by
  have h := get_state_error_contract ⟨some "v", [("78701", 43)]⟩
    ⟨none, none⟩ "00000" true
  exact ⟨h.2 (by decide) (by decide),
    fun hex => absurd (h.1.mp hex) (by decide)⟩

/-! ### Claim C6 -/

/-- C6: round-trips through the conversion functions: for every
registered state and inputs matching its full name and abbreviation
case-insensitively, converting the name yields the abbreviation and
converting that back yields the canonical full name, and symmetrically. -/
theorem conversion_roundtrip (p : String × String) (hp : p ∈ STATES)
    (x y : String) (hx : pyUpper x = pyUpper p.1)
    (hy : pyUpper y = pyUpper p.2) :
    state_to_abbr x none false = Except.ok (some p.2) ∧
    abbr_to_state p.2 none false = Except.ok (some p.1) ∧
    abbr_to_state y none false = Except.ok (some p.1) ∧
    state_to_abbr p.1 none false = Except.ok (some p.2) := by
  have h1 := states_lookup_name p hp
  have h2 := states_lookup_abbr p hp
  have h3 := states_abbr_upper p hp
  refine ⟨?_, ?_, ?_, ?_⟩
  · simp [state_to_abbr, hx, h1]
  · simp [abbr_to_state, h3, h2]
  · simp [abbr_to_state, hy, h3, h2]
  · simp [state_to_abbr, h1]

/-- Witness for C6 on Texas with mixed-case inputs. -/
theorem conversion_roundtrip_witness :
    state_to_abbr "tExAs" none false = Except.ok (some "TX") ∧
    abbr_to_state "TX" none false = Except.ok (some "Texas") ∧
    abbr_to_state "tx" none false = Except.ok (some "Texas") ∧
    state_to_abbr "Texas" none false = Except.ok (some "TX") :=
  conversion_roundtrip ("Texas", "TX") (by decide) "tExAs" "tx"
    (by decide) (by decide)

/-! ### Claim C7 -/

/-- C7: `format_state` returns the registry's canonical full name when
the input case-insensitively matches a full name; otherwise the
upper-cased input when it matches an abbreviation; otherwise the input
unchanged when `raise_exception` is false, and an error when it is
true. -/
theorem format_state_contract (value : String) (r : Bool) :
    (∀ p ∈ STATES, pyUpper value = pyUpper p.1 →
      format_state value r = Except.ok p.1) ∧
    (is_state_full value = false → is_state_abbr value = true →
      format_state value r = Except.ok (pyUpper value)) ∧
    (is_state value = false →
      format_state value false = Except.ok value ∧
      format_state value true =
        Except.error (PyError.stateException ("Unknown state: " ++ value))) := by
  refine ⟨?_, ?_, ?_⟩
  · intro p hp hup
    have h1 := states_lookup_name p hp
    have h2 := states_lookup_abbr p hp
    simp [format_state, hup, h1, h2]
  · intro hf ha
    cases hn : NAME_TO_ABBR.lookup (pyUpper value) with
    | some ab => simp [is_state_full, hn] at hf
    | none =>
        cases hab : ABBR_TO_NAME.lookup (pyUpper value) with
        | none => simp [is_state_abbr, hab] at ha
        | some nm => simp [format_state, hn, hab]
  · intro h
    obtain ⟨hn, ha⟩ := not_is_state_lookups value h
    exact ⟨by simp [format_state, hn, ha], by simp [format_state, hn, ha]⟩

/-- Witness for C7: canonical recasing of `"fLorIda"` and `"tx"`, and
the identity fallback and opt-in error on `"qQq"`. -/
theorem format_state_contract_witness :
    format_state "fLorIda" false = Except.ok "Florida" ∧
    format_state "tx" true = Except.ok "TX" ∧
    format_state "qQq" false = Except.ok "qQq" ∧
    format_state "qQq" true =
      Except.error (PyError.stateException "Unknown state: qQq") :=
  ⟨(format_state_contract "fLorIda" false).1 ("Florida", "FL") (by decide)
      (by decide),
   (format_state_contract "tx" true).2.1 (by decide) (by decide),
   ((format_state_contract "qQq" false).2.2 (by decide)).1,
   ((format_state_contract "qQq" true).2.2 (by decide)).2⟩

end Ziplus
